import Mathlib

/-!
Verification development for the `immersive` repository.

The definitions below are a shallow embedding of the Python sources:
  * `src/services/text-service/app/models.py` (request/response data model),
  * `src/services/text-service/app/core/factory.py` (`ModelProviderFactory`),
  * `src/services/text-service/app/core/providers/mock.py` (`MockProvider`),
  * `src/services/text-service/app/core/providers/gemini.py` (`GeminiProvider`),
  * `src/services/text-service/app/main.py` (`list_providers` endpoint),
  * `src/services/image-service/app/api/routes.py` (`get_job_status` endpoint),
  * `src/services/image-service/app/worker/tasks.py` (`process_image_job`).

Python dictionaries are modelled as association lists, `None` as `Option.none`,
truthiness of optional strings (`if key:`) as `isTruthy`, raised exceptions as
`Except.error`, and the process environment / the Celery result backend as
explicit function arguments.
-/

namespace Immersive

/-- Python dict with string keys, modelled as an association list. -/
abbrev PyDict (α : Type) := List (String × α)

/-- Python `d.get(k)`: the value at the first matching key, else `none`. -/
def pyGet {α : Type} (d : PyDict α) (k : String) : Option α :=
  (d.find? (fun kv => kv.1 == k)).map (fun kv => kv.2)

/-- Python truthiness of an optional string (`if key:`): `None` and `""` are falsy. -/
def isTruthy : Option String → Bool
  | some s => !s.isEmpty
  | none => false

/-- Python `str.lower` (character-wise, as used on the ASCII provider names and
seller inputs here). -/
def pyLower (s : String) : String := String.mk (s.data.map Char.toLower)

/-- Python `str.upper` (character-wise, as used on ASCII provider names here). -/
def pyUpper (s : String) : String := String.mk (s.data.map Char.toUpper)

/-- Python `str.strip`: drop leading and trailing whitespace. -/
def pyStrip (s : String) : String :=
  String.mk (((s.data.dropWhile Char.isWhitespace).reverse.dropWhile Char.isWhitespace).reverse)

/-- Splitting a character list at every occurrence of `sep`. -/
def splitChars (sep : Char) : List Char → List (List Char)
  | [] => [[]]
  | c :: cs =>
    let rest := splitChars sep cs
    if c == sep then [] :: rest
    else
      match rest with
      | [] => [[c]]
      | piece :: pieces => (c :: piece) :: pieces

/-- Python `s.split(sep)` for a one-character separator: always yields at least
one piece. -/
def pySplit (s : String) (sep : Char) : List String :=
  (splitChars sep s.data).map String.mk

/-- Python `sep.join(xs)`, as in `", ".join(cls._providers.keys())`. -/
def pyJoin (sep : String) : List String → String
  | [] => ""
  | x :: rest => rest.foldl (fun acc y => acc ++ sep ++ y) x

/-! ## Data model (`app/models.py`) -/

/-- `SellerInputs` from `app/models.py`. -/
structure SellerInputs where
  item_name : String
  materials : String
  inspiration : String
  category : String
deriving DecidableEq, Repr

/-- `Config` from `app/models.py` (generation configuration). -/
structure GenConfig where
  tone : String
  language : String
  target_platform : String
deriving DecidableEq, Repr

/-- `ContentRequest` from `app/models.py`. -/
structure ContentRequest where
  image_url : String
  seller_inputs : SellerInputs
  config : GenConfig
deriving DecidableEq, Repr

/-- `GeneratedContent` from `app/models.py`: all four fields are required. -/
structure GeneratedContent where
  title : String
  description : String
  product_facts : List String
  blog_snippet_idea : String
deriving DecidableEq, Repr

/-! ## Mock provider (`app/core/providers/mock.py`) -/

/-- `MockProvider.model_name`, set in `__init__`. -/
def mock_model_name : String := "mock-model-v1.0"

/-- Outcome of `MockProvider.fetch_image`: either the downloaded image bytes, or
the fallback gray `Image.new` image when the fetch raised. -/
inductive FetchOutcome : Type
  | fetched (content : List Nat)
  | fallbackImage
deriving DecidableEq, Repr

/-- `MockProvider._generate_mock_content`, a pure function of the request
fields. `materials.split(',')[0]` is the head of `pySplit` at the comma
character (`Char.ofNat 44`); a split always yields at least one piece. -/
def generate_mock_content (request : ContentRequest) : GeneratedContent :=
  let item_name := request.seller_inputs.item_name
  let materials := request.seller_inputs.materials
  let inspiration := request.seller_inputs.inspiration
  let category := request.seller_inputs.category
  let platform := request.config.target_platform
  let title := "Handcrafted " ++ item_name ++ " - " ++ category ++ " Collection"
  let description :=
    "This exquisite " ++ pyLower item_name ++
    " showcases the artistry and craftsmanship that goes into every piece. \n        \nCrafted with care using " ++
    pyLower materials ++
    ", this item represents a unique blend of tradition and contemporary design. \n        \nThe inspiration behind this piece comes from " ++
    pyLower inspiration ++
    ", which is reflected in its distinctive character and charm. Perfect for those who appreciate handmade quality and authentic craftsmanship.\n        \nWhether displayed in your home or given as a gift, this " ++
    pyLower category ++
    " piece tells a story of passion, creativity, and dedication to the art of making."
  let product_facts :=
    [ "Handcrafted " ++ pyLower category ++ " made with premium " ++
        pyLower (pyStrip ((pySplit materials (Char.ofNat 44)).headD "")),
      "Unique design inspired by " ++ pyLower inspiration,
      "One-of-a-kind piece, no two items are exactly alike",
      "Perfect for " ++ platform ++ " showcasing and presentation" ]
  let blog_snippet :=
    "Discover the story behind this stunning " ++ pyLower item_name ++
    ". Learn how " ++ pyLower inspiration ++
    " inspired the creation of this beautiful " ++ pyLower category ++
    " piece, and explore the craftsmanship that makes each item unique."
  { title := title
    description := description
    product_facts := product_facts
    blog_snippet_idea := blog_snippet }

/-- `MockProvider.generate_content`: fetches the image (result unused by the
content generation) and returns `(_generate_mock_content(request), model_name)`.
The network is modelled by the explicit `fetch` argument. -/
def mock_generate_content (fetch : String → FetchOutcome) (request : ContentRequest) :
    GeneratedContent × String :=
  let _image := fetch request.image_url
  (generate_mock_content request, mock_model_name)

/-! ## Settings (`app/config.py`) and the provider factory (`app/core/factory.py`) -/

/-- Model of the settings object as read by the factory and the providers-list
endpoint: `default_provider`, `mock_mode`, the generic `api_keys` dict (absent
when `getattr(settings, "api_keys", None)` is not a dict), the
`provider_settings` dict of dicts, and `attr`, modelling
`getattr(settings, name, None)` for dynamically looked-up string attributes
such as `gemini_api_key`, `google_api_key` and `GOOGLE_API_KEY`. -/
structure SettingsObj where
  default_provider : String := "gemini"
  mock_mode : Bool := true
  api_keys : Option (PyDict (Option String)) :=
    some [("gemini", none), ("openai", none), ("huggingface", none)]
  provider_settings : PyDict (PyDict (Option String)) :=
    [ ("gemini", [("model_name", some "models/gemini-2.5-flash"), ("api_key", none)]),
      ("openai", [("model_name", some "gpt-4o-mini"), ("api_key", none)]),
      ("huggingface", [("model_name", some "distilbert-base-uncased"), ("api_key", none)]) ]
  attr : String → Option String := fun _ => none

/-- Resolution tier 1 of `ModelProviderFactory._resolve_api_key`:
`settings.provider_settings.get(provider, {}).get("api_key")`. -/
def tier_provider_settings (s : SettingsObj) (provider : String) : Option String :=
  (pyGet ((pyGet s.provider_settings provider).getD []) "api_key").join

/-- Resolution tier 2 of `_resolve_api_key`:
`getattr(settings, f"{provider}_api_key", None)`. -/
def tier_settings_attr (s : SettingsObj) (provider : String) : Option String :=
  s.attr (provider ++ "_api_key")

/-- Resolution tier 2b of `_resolve_api_key`: `settings.api_keys.get(provider)`
when `settings.api_keys` is a dict. -/
def tier_api_keys_map (s : SettingsObj) (provider : String) : Option String :=
  match s.api_keys with
  | some m => (pyGet m provider).join
  | none => none

/-- Resolution tier 3 of `_resolve_api_key`: the environment variable
`f"{provider.upper()}_API_KEY"`. -/
def tier_env_var (env : String → Option String) (provider : String) : Option String :=
  env (pyUpper provider ++ "_API_KEY")

/-- Resolution tier 4 of `_resolve_api_key`, the well-known Gemini alias:
`os.environ.get("GOOGLE_API_KEY")`, falling back (when that is falsy and a
settings object is present) to `getattr(settings, "google_api_key", None)`. -/
def tier_gemini_alias (settings : Option SettingsObj) (env : String → Option String) :
    Option String :=
  let key := env "GOOGLE_API_KEY"
  if !(isTruthy key) && settings.isSome then
    match settings with
    | some s => s.attr "google_api_key"
    | none => none
  else key

/-- `ModelProviderFactory._resolve_api_key(provider_name, settings)`: walks the
tiers in order and returns the first truthy key, else `None`. The process
environment is the explicit `env` argument. -/
def resolve_api_key (provider_name : String) (settings : Option SettingsObj)
    (env : String → Option String) : Option String :=
  let provider := pyLower provider_name
  let k1 := match settings with
    | some s => tier_provider_settings s provider
    | none => none
  if isTruthy k1 then k1 else
  let k2 := match settings with
    | some s => tier_settings_attr s provider
    | none => none
  if isTruthy k2 then k2 else
  let k2b := match settings with
    | some s => tier_api_keys_map s provider
    | none => none
  if isTruthy k2b then k2b else
  let k3 := tier_env_var env provider
  if isTruthy k3 then k3 else
  if provider == "gemini" then
    let k4 := tier_gemini_alias settings env
    if isTruthy k4 then k4 else none
  else none

/-- The provider classes held by the factory registry. -/
inductive ProviderClass : Type
  | gemini
  | mock
deriving DecidableEq, Repr

/-- `ModelProviderFactory._providers`, the initial class-level registry. -/
def providersRegistry : PyDict ProviderClass :=
  [("gemini", ProviderClass.gemini), ("mock", ProviderClass.mock)]

/-- The registered provider names, `cls._providers.keys()` (also the body of
`ModelProviderFactory.list_providers`). -/
def registryNames : List String := providersRegistry.map Prod.fst

/-- Keyword arguments passed to a provider constructor: the two keywords the
`GeminiProvider` constructor knows (`api_key`, `model_name`) plus the names of
any other keyword arguments (e.g. `category`, `platform` as passed by
`app/main.py`), whose values cannot influence construction because every
constructor in the repository rejects them with a `TypeError`. -/
structure Kwargs where
  api_key : Option String := none
  model_name : Option String := none
  extra : List String := []
deriving DecidableEq, Repr

/-- Exceptions a provider constructor can raise: `TypeError` for unexpected
keyword arguments, `ValueError` (with its message) from the constructor body. -/
inductive ConstructionError : Type
  | typeError
  | valueError (msg : String)
deriving DecidableEq, Repr

/-- A constructed provider instance with the state its constructor stored. -/
inductive ProviderInstance : Type
  | mock
  | gemini (api_key : String) (model_name : String)
deriving DecidableEq, Repr

/-- The message of the `ValueError` raised by `GeminiProvider.__init__` when no
API key is available. -/
def geminiMissingKeyMsg : String :=
  "GOOGLE_API_KEY not found. Please set it as an environment variable."

/-- Construction of a provider instance, `provider_class(**kwargs)`.
`MockProvider.__init__` accepts no keyword arguments; `GeminiProvider.__init__`
accepts `api_key` and `model_name` (default `"gemini-2.5-flash"`), computes
`self.api_key = api_key or os.environ.get("GOOGLE_API_KEY")`, and raises a
`ValueError` when the result is falsy. Its network side effects
(`genai.configure`, model and HTTP-client creation) have no bearing on the
stored state and are not modelled. -/
def constructProvider (cls : ProviderClass) (kwargs : Kwargs)
    (env : String → Option String) : Except ConstructionError ProviderInstance :=
  match cls with
  | ProviderClass.mock =>
    if kwargs.api_key.isSome || kwargs.model_name.isSome || !kwargs.extra.isEmpty then
      Except.error ConstructionError.typeError
    else Except.ok ProviderInstance.mock
  | ProviderClass.gemini =>
    if !kwargs.extra.isEmpty then Except.error ConstructionError.typeError
    else
      let effective := if isTruthy kwargs.api_key then kwargs.api_key else env "GOOGLE_API_KEY"
      if isTruthy effective then
        Except.ok (ProviderInstance.gemini (effective.getD "")
          (kwargs.model_name.getD "gemini-2.5-flash"))
      else Except.error (ConstructionError.valueError geminiMissingKeyMsg)

/-- Exceptions escaping `ModelProviderFactory.get_provider`: the `ValueError`
for an unsupported provider (with its formatted message), or an exception
propagating unwrapped out of a provider constructor. -/
inductive FactoryError : Type
  | valueErrorUnsupported (message : String)
  | raisedFromConstructor (e : ConstructionError)
deriving DecidableEq, Repr

/-- The keyword arguments actually handed to the constructor by `get_provider`:
the resolved API key, when truthy and the provider is `gemini`, is written into
`kwargs["api_key"]`, overwriting any caller-supplied value. -/
def effectiveKwargs (provider_name : String) (settings : Option SettingsObj)
    (env : String → Option String) (kwargs : Kwargs) : Kwargs :=
  let api_key := resolve_api_key provider_name settings env
  if isTruthy api_key && pyLower provider_name == "gemini" then
    { kwargs with api_key := api_key }
  else kwargs

/-- `ModelProviderFactory.get_provider`: mock-mode short-circuit, then
case-insensitive registry lookup (unknown name raises the unsupported
`ValueError`), then construction with the effective kwargs; a `TypeError`
from the constructor is silently retried as `provider_class()` with no
arguments, and any other constructor exception propagates unwrapped. -/
def get_provider (provider_name : String) (mock_mode : Bool)
    (settings : Option SettingsObj) (env : String → Option String)
    (kwargs : Kwargs) : Except FactoryError ProviderInstance :=
  if mock_mode then Except.ok ProviderInstance.mock
  else
    match pyGet providersRegistry (pyLower provider_name) with
    | none =>
      Except.error (FactoryError.valueErrorUnsupported
        ("Unsupported provider: " ++ provider_name ++ ". Supported providers: " ++
          pyJoin ", " registryNames))
    | some provider_class =>
      match constructProvider provider_class (effectiveKwargs provider_name settings env kwargs) env with
      | Except.ok p => Except.ok p
      | Except.error ConstructionError.typeError =>
        match constructProvider provider_class {} env with
        | Except.ok p => Except.ok p
        | Except.error e => Except.error (FactoryError.raisedFromConstructor e)
      | Except.error e => Except.error (FactoryError.raisedFromConstructor e)

/-! ## Gemini provider response handling (`app/core/providers/gemini.py`) -/

/-- JSON values, the possible results of `json.loads` (also the values a Celery
JSON result backend can store). -/
inductive Json : Type
  | null
  | bool (b : Bool)
  | num (n : Int)
  | str (s : String)
  | arr (xs : List Json)
  | obj (kvs : List (String × Json))

/-- Pydantic validation of a `str` field. -/
def asStr : Json → Option String
  | Json.str s => some s
  | _ => none

/-- Pydantic validation of a `List[str]` field. -/
def asStrList : Json → Option (List String)
  | Json.arr xs => xs.mapM asStr
  | _ => none

/-- Pydantic validation performed by `GeneratedContent(**d)`: each of the four
fields must be present and of the declared type, else a `ValidationError` is
raised (modelled as `none`). -/
def validateGeneratedContent (kvs : List (String × Json)) : Option GeneratedContent :=
  match pyGet kvs "title", pyGet kvs "description",
        pyGet kvs "product_facts", pyGet kvs "blog_snippet_idea" with
  | some t, some d, some pf, some b =>
    match asStr t, asStr d, asStrList pf, asStr b with
    | some t, some d, some pf, some b =>
      some { title := t, description := d, product_facts := pf, blog_snippet_idea := b }
    | _, _, _, _ => none
  | _, _, _, _ => none

/-- Observable outcome of the remote interaction inside
`GeminiProvider.generate_content`: the image fetch or the generation call
raised `httpx.RequestError`, or the call returned a body, which `json.loads`
either fails to parse (`none`, raising `json.JSONDecodeError`) or parses to a
`Json` value. -/
inductive RemoteOutcome : Type
  | requestError
  | response (parsed : Option Json)

/-- Exceptions escaping `GeminiProvider.generate_content`: the generic
`Exception("Failed to generate content from Gemini")` raised by its handler
for `httpx.RequestError`, `json.JSONDecodeError` and `TypeError`, or a
pydantic `ValidationError` (a `ValueError` subclass, absent from that handler
tuple) propagating uncaught out of `GeneratedContent(**response_json)`. -/
inductive GeminiError : Type
  | wrapped (msg : String)
  | pydanticValidationError
deriving DecidableEq, Repr

/-- The message of the generic exception raised by the Gemini error handler. -/
def geminiFailureMsg : String := "Failed to generate content from Gemini"

/-- `GeminiProvider.generate_content` from the point of view of its caller:
fetch the image, call the model, `json.loads` the reply, build
`GeneratedContent(**response_json)` and return it with `self.model_name`.
A non-mapping parse result makes `**` raise a `TypeError`, caught and wrapped
like transport and parse errors; a mapping that fails pydantic validation
raises the uncaught `ValidationError`. -/
def gemini_generate_content (model_name : String) (outcome : RemoteOutcome) :
    Except GeminiError (GeneratedContent × String) :=
  match outcome with
  | RemoteOutcome.requestError => Except.error (GeminiError.wrapped geminiFailureMsg)
  | RemoteOutcome.response none => Except.error (GeminiError.wrapped geminiFailureMsg)
  | RemoteOutcome.response (some j) =>
    match j with
    | Json.obj kvs =>
      match validateGeneratedContent kvs with
      | some gc => Except.ok (gc, model_name)
      | none => Except.error GeminiError.pydanticValidationError
    | _ => Except.error (GeminiError.wrapped geminiFailureMsg)

/-! ## Image service job lifecycle (`image-service/app`) -/

/-- `JobStatus` from `app/schemas/job.py`. -/
inductive JobStatus : Type
  | queued
  | processing
  | completed
  | failed
deriving DecidableEq, Repr

/-- The view of `celery.result.AsyncResult(job_id)` read by the status route:
its `state` string and its `result` value as stored by the JSON result
backend (`Json.null` when there is no stored result; for a failed task the
stored exception, rendered here by `pyStr`). -/
structure AsyncResult where
  state : String
  result : Json

/-- Python `str()` of a backend-stored result value, used by the `FAILURE`
branch (`str(task_result.result)`). Its exact rendering is irrelevant to the
claims; what matters is that it is total and yields a string for every stored
value. -/
def pyStr : Json → String
  | Json.null => "None"
  | Json.bool b => if b then "True" else "False"
  | Json.num n => toString n
  | Json.str s => s
  | Json.arr _ => "[...]"
  | Json.obj _ => "{...}"

/-- The Celery-state to API-state mapping of `get_job_status`
(`app/api/routes.py`): `api_status` starts as `PROCESSING` and the if-chain
overrides it for `SUCCESS`, `FAILURE` and `PENDING`. -/
def celery_to_api_status (celery_state : String) : JobStatus :=
  if celery_state == "SUCCESS" then JobStatus.completed
  else if celery_state == "FAILURE" then JobStatus.failed
  else if celery_state == "PENDING" then JobStatus.queued
  else JobStatus.processing

/-- `ImageJobResponse` from `app/schemas/job.py`, restricted to the fields the
status route populates (`created_at` is `datetime.now()` at response time and
`queue_position` is left unset; neither carries job state). -/
structure ImageJobResponse where
  job_id : String
  status : JobStatus
  result_url : Option String
  error : Option String

/-- `get_job_status(job_id)` from `app/api/routes.py`: reads
`AsyncResult(job_id)` from the result backend (the explicit `backend`
argument), maps the Celery state, and fills `result_url` only in the
`SUCCESS` branch (when the stored result is a dict, from its `"result_url"`
entry) and `error` only in the `FAILURE` branch (as `str(task_result.result)`,
always a string). -/
def get_job_status (backend : String → AsyncResult) (job_id : String) : ImageJobResponse :=
  let task_result := backend job_id
  let celery_state := task_result.state
  let api_status := celery_to_api_status celery_state
  let result_url : Option String :=
    if celery_state == "SUCCESS" then
      match task_result.result with
      | Json.obj kvs =>
        match pyGet kvs "result_url" with
        | some (Json.str u) => some u
        | _ => none
      | _ => none
    else none
  let error_msg : Option String :=
    if celery_state == "FAILURE" then some (pyStr task_result.result) else none
  { job_id := job_id, status := api_status, result_url := result_url, error := error_msg }

/-- The value returned by the worker task `process_image_job`
(`app/worker/tasks.py`) for job `job_id`, as the JSON result backend stores it
(the `JobStatus.COMPLETED` enum member serializes to `"completed"`). -/
def process_image_job_result (job_id : String) : Json :=
  Json.obj
    [ ("job_id", Json.str job_id),
      ("status", Json.str "completed"),
      ("result_url", Json.str "https://example.com/processed_image.png") ]

/-- Celery result-backend semantics (external library behaviour the route
relies on): `AsyncResult(id)` for an id the backend has no record of — in
particular an id that was never submitted — reports state `PENDING` with no
stored result. -/
def asyncResultFor (store : String → Option AsyncResult) (id : String) : AsyncResult :=
  (store id).getD { state := "PENDING", result := Json.null }

/-! ## Providers-list endpoint (`text-service/app/main.py`) -/

/-- The `note` string of the providers-list response. -/
def providersNote : String :=
  "When mock_mode is True, all requests will use MockProvider regardless of provider selection"

/-- The JSON object returned by the `/v1/providers` endpoint. -/
structure ProvidersListResponse where
  default_provider : String
  available_providers : List String
  provider_settings : PyDict (PyDict (Option String))
  mock_mode : Bool
  api_key_configured : Bool
  note : String

/-- `list_providers(settings)` from `app/main.py`: returns the registered
names, the default provider, the `settings.provider_settings` block verbatim,
the mock-mode flag, and `api_key_configured`, computed as
`bool(getattr(settings, "GOOGLE_API_KEY", None) or getattr(settings,
"google_api_key", None)) or bool(os.environ.get("GOOGLE_API_KEY"))`. -/
def list_providers (settings : SettingsObj) (env : String → Option String) :
    ProvidersListResponse :=
  let providers := registryNames
  let api_key_in_settings :=
    isTruthy (settings.attr "GOOGLE_API_KEY") || isTruthy (settings.attr "google_api_key")
  let api_key_in_env := isTruthy (env "GOOGLE_API_KEY")
  { default_provider := settings.default_provider
    available_providers := providers
    provider_settings := settings.provider_settings
    mock_mode := settings.mock_mode
    api_key_configured := api_key_in_settings || api_key_in_env
    note := providersNote }

/-! ## Concrete configurations used by witnesses and counterexamples -/

/-- An empty process environment. -/
def envNone : String → Option String := fun _ => none

/-- A settings object carrying an API key for gemini in the
`provider_settings` tier. -/
def c1Settings : SettingsObj :=
  { provider_settings :=
      [("gemini", [("model_name", some "models/gemini-2.5-flash"),
                   ("api_key", some "settings-tier-key")])] }

/-- An environment where only the well-known alias `GOOGLE_API_KEY` is set. -/
def c4Env : String → Option String :=
  fun v => if v == "GOOGLE_API_KEY" then some "env-alias-key" else none

/-- A settings object with a secret configured in the `provider_settings`
block. -/
def leakSettings : SettingsObj :=
  { provider_settings :=
      [("gemini", [("model_name", some "models/gemini-2.5-flash"),
                   ("api_key", some "sk-secret-123")])] }

/-- Like `leakSettings` but with a different secret value. -/
def leakSettings2 : SettingsObj :=
  { provider_settings :=
      [("gemini", [("model_name", some "models/gemini-2.5-flash"),
                   ("api_key", some "sk-other-456")])] }

/-! ## Theorems -/

/-- C2: for every provider name, settings object, environment and keyword
arguments, calling `get_provider` with `mock_mode = true` returns the Mock
strategy, regardless of the requested provider name (including unknown
names). -/
theorem mock_mode_short_circuit (provider_name : String) (settings : Option SettingsObj)
    (env : String → Option String) (kwargs : Kwargs) :
    get_provider provider_name true settings env kwargs = Except.ok ProviderInstance.mock :=
  rfl

/-- C3: for every provider name whose lower-cased form is not a registry key
(with `mock_mode = false`), `get_provider` raises the unsupported-provider
error whose message lists exactly the registered provider names; for every
name whose lower-cased form is registered, the lookup succeeds and no
unsupported-provider error can be raised. -/
theorem unsupported_provider_listing (provider_name : String) (settings : Option SettingsObj)
    (env : String → Option String) (kwargs : Kwargs) :
    (pyGet providersRegistry (pyLower provider_name) = none →
      get_provider provider_name false settings env kwargs =
        Except.error (FactoryError.valueErrorUnsupported
          ("Unsupported provider: " ++ provider_name ++ ". Supported providers: " ++
            pyJoin ", " registryNames))) ∧
    (pyGet providersRegistry (pyLower provider_name) ≠ none →
      ∀ msg, get_provider provider_name false settings env kwargs ≠
        Except.error (FactoryError.valueErrorUnsupported msg)) := by
  constructor
  · intro h
    simp [get_provider, h]
  · intro h msg
    cases hreg : pyGet providersRegistry (pyLower provider_name) with
    | none => exact absurd hreg h
    | some cls =>
      simp only [get_provider, hreg, if_false, Bool.false_eq_true]
      cases h1 : constructProvider cls (effectiveKwargs provider_name settings env kwargs) env with
      | ok p => simp
      | error e =>
        cases e with
        | typeError =>
          cases h2 : constructProvider cls {} env with
          | ok p => simp
          | error e2 => simp
        | valueError m => simp

/-- Witness for C3: the unknown name `"doesnotexist"` raises the error listing
`gemini, mock`, and the registered name `"GeMiNi"` (case-insensitive) never
does. -/
theorem unsupported_provider_listing_witness :
    get_provider "doesnotexist" false none envNone {} =
      Except.error (FactoryError.valueErrorUnsupported
        "Unsupported provider: doesnotexist. Supported providers: gemini, mock") ∧
    ∀ msg, get_provider "GeMiNi" false none envNone {} ≠
      Except.error (FactoryError.valueErrorUnsupported msg) := by
  constructor
  · exact (unsupported_provider_listing "doesnotexist" none envNone {}).1 rfl
  · exact (unsupported_provider_listing "GeMiNi" none envNone {}).2 (by decide)

/-- C1 counterexample: with an API key present in the `provider_settings` tier
and a conflicting explicit per-call `api_key` keyword argument, `get_provider`
constructs the strategy with the lower tier's value — the factory writes the
resolved key into `kwargs["api_key"]`, overwriting the per-call override — so
the claimed precedence of the explicit override is false. -/
theorem per_call_override_loses_counterexample :
    get_provider "gemini" false (some c1Settings) envNone
        { api_key := some "explicit-override-key" } =
      Except.ok (ProviderInstance.gemini "settings-tier-key" "gemini-2.5-flash") ∧
    get_provider "gemini" false (some c1Settings) envNone
        { api_key := some "explicit-override-key" } ≠
      Except.ok (ProviderInstance.gemini "explicit-override-key" "gemini-2.5-flash") := by
  refine ⟨rfl, ?_⟩
  intro h
  rw [show get_provider "gemini" false (some c1Settings) envNone
        { api_key := some "explicit-override-key" } =
      Except.ok (ProviderInstance.gemini "settings-tier-key" "gemini-2.5-flash") from rfl] at h
  simp at h

/-- C1 amended: among the resolver's own tiers (provider_settings block,
settings attribute, generic api_keys map, environment variable) the
higher-precedence tier's value is the one resolved; but the explicit per-call
`api_key` keyword argument is not the highest tier: whenever any resolver tier
yields a truthy key, the strategy is constructed with the resolved value,
overwriting the per-call keyword, which is used only when resolution yields
nothing. -/
theorem api_key_precedence_amended (s : SettingsObj) (env : String → Option String)
    (kw : Kwargs) (provider_name : String) :
    (isTruthy (tier_provider_settings s (pyLower provider_name)) = true →
      resolve_api_key provider_name (some s) env =
        tier_provider_settings s (pyLower provider_name)) ∧
    (isTruthy (tier_provider_settings s (pyLower provider_name)) = false →
      isTruthy (tier_settings_attr s (pyLower provider_name)) = true →
      resolve_api_key provider_name (some s) env =
        tier_settings_attr s (pyLower provider_name)) ∧
    (isTruthy (tier_provider_settings s (pyLower provider_name)) = false →
      isTruthy (tier_settings_attr s (pyLower provider_name)) = false →
      isTruthy (tier_api_keys_map s (pyLower provider_name)) = true →
      resolve_api_key provider_name (some s) env =
        tier_api_keys_map s (pyLower provider_name)) ∧
    (isTruthy (tier_provider_settings s (pyLower provider_name)) = false →
      isTruthy (tier_settings_attr s (pyLower provider_name)) = false →
      isTruthy (tier_api_keys_map s (pyLower provider_name)) = false →
      isTruthy (tier_env_var env (pyLower provider_name)) = true →
      resolve_api_key provider_name (some s) env =
        tier_env_var env (pyLower provider_name)) ∧
    (isTruthy (resolve_api_key "gemini" (some s) env) = true → kw.extra = [] →
      get_provider "gemini" false (some s) env kw =
        Except.ok (ProviderInstance.gemini
          ((resolve_api_key "gemini" (some s) env).getD "")
          (kw.model_name.getD "gemini-2.5-flash"))) ∧
    (isTruthy (resolve_api_key "gemini" (some s) env) = false → kw.extra = [] →
      isTruthy kw.api_key = true →
      get_provider "gemini" false (some s) env kw =
        Except.ok (ProviderInstance.gemini (kw.api_key.getD "")
          (kw.model_name.getD "gemini-2.5-flash"))) := by
  refine ⟨?_, ?_, ?_, ?_, ?_, ?_⟩
  · intro h1
    simp [resolve_api_key, h1]
  · intro h1 h2
    simp [resolve_api_key, h1, h2]
  · intro h1 h2 h3
    simp [resolve_api_key, h1, h2, h3]
  · intro h1 h2 h3 h4
    simp [resolve_api_key, h1, h2, h3, h4]
  · intro h1 h2
    have hreg : pyGet providersRegistry (pyLower "gemini") = some ProviderClass.gemini := rfl
    have hkw : effectiveKwargs "gemini" (some s) env kw =
        { kw with api_key := resolve_api_key "gemini" (some s) env } := by
      simp [effectiveKwargs, h1, show pyLower "gemini" = "gemini" from rfl]
    simp only [get_provider, hreg, hkw]
    simp [constructProvider, h1, h2]
  · intro h1 h2 h3
    have hreg : pyGet providersRegistry (pyLower "gemini") = some ProviderClass.gemini := rfl
    have hkw : effectiveKwargs "gemini" (some s) env kw = kw := by
      simp [effectiveKwargs, h1]
    simp only [get_provider, hreg, hkw]
    simp [constructProvider, h1, h2, h3]

/-- Witness for C1 amended: with `"settings-tier-key"` configured at the
`provider_settings` tier and a per-call keyword `"per-call-key"`, the factory
constructs the Gemini strategy with the settings-tier value. -/
theorem api_key_precedence_amended_witness :
    get_provider "gemini" false (some c1Settings) envNone { api_key := some "per-call-key" } =
      Except.ok (ProviderInstance.gemini "settings-tier-key" "gemini-2.5-flash") := by
  have h := (api_key_precedence_amended c1Settings envNone
    { api_key := some "per-call-key" } "gemini").2.2.2.2.1 rfl rfl
  rw [h]
  rfl

/-- C4 counterexample: the Gemini constructor rejects the supplied keyword
arguments (`category` is not a parameter, a `TypeError`), yet `get_provider`
silently retries with default arguments and succeeds via the environment
alias, discarding both the explicit and the resolved key — construction
failure is replaced by default construction and no `ProviderConstructionError`
is raised. -/
theorem construction_fallback_counterexample :
    get_provider "gemini" false none c4Env
        { api_key := some "explicit-key", extra := ["category"] } =
      Except.ok (ProviderInstance.gemini "env-alias-key" "gemini-2.5-flash") ∧
    get_provider "gemini" false none envNone {} =
      Except.error (FactoryError.raisedFromConstructor
        (ConstructionError.valueError geminiMissingKeyMsg)) :=
  ⟨rfl, rfl⟩

/-- C4 amended: a constructor `TypeError` (rejected keyword arguments) is
silently retried as `provider_class()` with no arguments; any other
construction failure (e.g. the missing-credential `ValueError`) propagates
unwrapped, with no `ProviderConstructionError` wrapping and no redacted
config attached; a successful construction is returned as-is. -/
theorem construction_error_propagation_amended (provider_name : String)
    (settings : Option SettingsObj) (env : String → Option String) (kw : Kwargs)
    (cls : ProviderClass)
    (hreg : pyGet providersRegistry (pyLower provider_name) = some cls) :
    (constructProvider cls (effectiveKwargs provider_name settings env kw) env =
        Except.error ConstructionError.typeError →
      get_provider provider_name false settings env kw =
        (match constructProvider cls {} env with
         | Except.ok p => Except.ok p
         | Except.error e => Except.error (FactoryError.raisedFromConstructor e))) ∧
    (∀ m, constructProvider cls (effectiveKwargs provider_name settings env kw) env =
        Except.error (ConstructionError.valueError m) →
      get_provider provider_name false settings env kw =
        Except.error (FactoryError.raisedFromConstructor (ConstructionError.valueError m))) ∧
    (∀ p, constructProvider cls (effectiveKwargs provider_name settings env kw) env =
        Except.ok p →
      get_provider provider_name false settings env kw = Except.ok p) := by
  refine ⟨?_, ?_, ?_⟩
  · intro h
    simp [get_provider, hreg, h]
  · intro m h
    simp [get_provider, hreg, h]
  · intro p h
    simp [get_provider, hreg, h]

/-- Witness for C4 amended: `app/main.py` passes `category` and `platform`
keywords; `MockProvider.__init__` rejects them with a `TypeError`, and the
factory silently falls back to `MockProvider()`. -/
theorem construction_error_propagation_amended_witness :
    get_provider "mock" false none envNone { extra := ["category", "platform"] } =
      Except.ok ProviderInstance.mock := by
  have h := (construction_error_propagation_amended "mock" none envNone
    { extra := ["category", "platform"] } ProviderClass.mock rfl).1 rfl
  rw [h]
  rfl

/-- C5 counterexample: a response body that parses to a JSON object missing
required fields makes `GeneratedContent(**response_json)` raise a pydantic
`ValidationError`, which is not in the handler tuple
`(httpx.RequestError, json.JSONDecodeError, TypeError)` and therefore escapes
unwrapped — not as the generic generation error raised for parse failures. -/
theorem schema_failure_not_wrapped_counterexample :
    gemini_generate_content "gemini-2.5-flash"
        (RemoteOutcome.response (some (Json.obj [("title", Json.str "A Title")]))) =
      Except.error GeminiError.pydanticValidationError ∧
    (Except.error GeminiError.pydanticValidationError :
        Except GeminiError (GeneratedContent × String)) ≠
      Except.error (GeminiError.wrapped geminiFailureMsg) := by
  refine ⟨rfl, ?_⟩
  intro h
  simp [geminiFailureMsg] at h

/-- C5 amended: transport failure, JSON-parse failure and a non-mapping body
each raise the generic wrapped generation error; schema-validation failure on
a JSON object raises the uncaught `ValidationError`; and a `GeneratedContent`
is returned only when the body is a JSON object that validates in full — no
partially-populated value is ever returned. -/
theorem gemini_error_paths_amended (model_name : String) (outcome : RemoteOutcome) :
    (outcome = RemoteOutcome.requestError ∨ outcome = RemoteOutcome.response none →
      gemini_generate_content model_name outcome =
        Except.error (GeminiError.wrapped geminiFailureMsg)) ∧
    (∀ kvs, outcome = RemoteOutcome.response (some (Json.obj kvs)) →
      validateGeneratedContent kvs = none →
      gemini_generate_content model_name outcome =
        Except.error GeminiError.pydanticValidationError) ∧
    (∀ gc m, gemini_generate_content model_name outcome = Except.ok (gc, m) →
      m = model_name ∧ ∃ kvs, outcome = RemoteOutcome.response (some (Json.obj kvs)) ∧
        validateGeneratedContent kvs = some gc) := by
  refine ⟨?_, ?_, ?_⟩
  · rintro (h | h) <;> subst h <;> rfl
  · intro kvs h hv
    subst h
    simp [gemini_generate_content, hv]
  · intro gc m h
    match outcome with
    | RemoteOutcome.requestError => exact absurd h (by simp [gemini_generate_content])
    | RemoteOutcome.response none => exact absurd h (by simp [gemini_generate_content])
    | RemoteOutcome.response (some j) =>
      match j with
      | Json.obj kvs =>
        simp only [gemini_generate_content] at h
        cases hv : validateGeneratedContent kvs with
        | none => rw [hv] at h; exact absurd h (by simp)
        | some gc2 =>
          rw [hv] at h
          have h2 := h
          simp only [Except.ok.injEq, Prod.mk.injEq] at h2
          exact ⟨h2.2.symm, kvs, rfl, by rw [hv, h2.1]⟩
      | Json.null => exact absurd h (by simp [gemini_generate_content])
      | Json.bool b => exact absurd h (by simp [gemini_generate_content])
      | Json.num n => exact absurd h (by simp [gemini_generate_content])
      | Json.str s => exact absurd h (by simp [gemini_generate_content])
      | Json.arr xs => exact absurd h (by simp [gemini_generate_content])

/-- Witness for C5 amended: a transport failure yields the wrapped generic
error. -/
theorem gemini_error_paths_amended_witness :
    gemini_generate_content "gemini-2.5-flash" RemoteOutcome.requestError =
      Except.error (GeminiError.wrapped geminiFailureMsg) := by
  exact (gemini_error_paths_amended "gemini-2.5-flash" RemoteOutcome.requestError).1 (Or.inl rfl)

/-- C6: the Mock strategy's generated content is a pure function of the
request fields — two invocations on the same request, under arbitrarily
different fetch environments, produce identical `GeneratedContent` (all four
fields), and the output is exactly `_generate_mock_content(request)` with the
fixed mock model name. -/
theorem mock_determinism (fetch1 fetch2 : String → FetchOutcome) (request : ContentRequest) :
    mock_generate_content fetch1 request = mock_generate_content fetch2 request ∧
    mock_generate_content fetch1 request = (generate_mock_content request, mock_model_name) :=
  ⟨rfl, rfl⟩

/-- C7: the status route's mapping of Celery states is exactly the fixed
table — `PENDING` (not yet started) to `QUEUED`, `STARTED` and `RETRY` to
`PROCESSING`, `SUCCESS` to `COMPLETED`, `FAILURE` to `FAILED` — and it is
exhaustive: every other state string the substrate could emit maps to
`PROCESSING` (the default), and the response's status field is always the
mapped value. -/
theorem status_mapping_total :
    celery_to_api_status "PENDING" = JobStatus.queued ∧
    celery_to_api_status "STARTED" = JobStatus.processing ∧
    celery_to_api_status "RETRY" = JobStatus.processing ∧
    celery_to_api_status "SUCCESS" = JobStatus.completed ∧
    celery_to_api_status "FAILURE" = JobStatus.failed ∧
    (∀ st : String, st ≠ "SUCCESS" → st ≠ "FAILURE" → st ≠ "PENDING" →
      celery_to_api_status st = JobStatus.processing) ∧
    (∀ (backend : String → AsyncResult) (id : String),
      (get_job_status backend id).status = celery_to_api_status (backend id).state) := by
  refine ⟨rfl, rfl, rfl, rfl, rfl, ?_, ?_⟩
  · intro st h1 h2 h3
    simp [celery_to_api_status, h1, h2, h3]
  · intro backend id
    rfl

/-- Witness for C7: the out-of-table state `"REVOKED"` maps to `PROCESSING`. -/
theorem status_mapping_total_witness :
    celery_to_api_status "REVOKED" = JobStatus.processing := by
  exact status_mapping_total.2.2.2.2.2.1 "REVOKED" (by decide) (by decide) (by decide)

/-- C8: for every job snapshot returned by the status route, under the
closed-system assumption that a `SUCCESS` record in the result backend holds
the return value of this repository's worker task `process_image_job`, the
`result_url` field is set if and only if the status is `COMPLETED` and the
`error` field is set if and only if the status is `FAILED`; `QUEUED` and
`PROCESSING` snapshots carry neither. -/
theorem result_error_exclusivity (backend : String → AsyncResult) (id : String)
    (h : (backend id).state = "SUCCESS" →
      ∃ jid, (backend id).result = process_image_job_result jid) :
    ((get_job_status backend id).result_url.isSome ↔
      (get_job_status backend id).status = JobStatus.completed) ∧
    ((get_job_status backend id).error.isSome ↔
      (get_job_status backend id).status = JobStatus.failed) := by
  by_cases hS : (backend id).state = "SUCCESS"
  · obtain ⟨jid, hres⟩ := h hS
    simp [get_job_status, celery_to_api_status, hS, hres, process_image_job_result, pyGet]
  · by_cases hF : (backend id).state = "FAILURE"
    · simp [get_job_status, celery_to_api_status, hS, hF]
    · by_cases hP : (backend id).state = "PENDING"
      · simp [get_job_status, celery_to_api_status, hS, hF, hP]
      · simp [get_job_status, celery_to_api_status, hS, hF, hP]

/-- A concrete result backend: a successful worker record for `"job-1"`, a
failed record for every other id. -/
def twoJobBackend : String → AsyncResult := fun i =>
  if i == "job-1" then { state := "SUCCESS", result := process_image_job_result "job-1" }
  else { state := "FAILURE", result := Json.str "boom" }

/-- Witness for C8: the backend `twoJobBackend` satisfies both equivalences at
`"job-1"`. -/
theorem result_error_exclusivity_witness :
    ((get_job_status twoJobBackend "job-1").result_url.isSome ↔
      (get_job_status twoJobBackend "job-1").status = JobStatus.completed) ∧
    ((get_job_status twoJobBackend "job-1").error.isSome ↔
      (get_job_status twoJobBackend "job-1").status = JobStatus.failed) := by
  exact result_error_exclusivity twoJobBackend "job-1" (fun _ => ⟨"job-1", rfl⟩)

/-- C9 (code bug): the providers-list endpoint returns
`settings.provider_settings` verbatim, so an API key configured in that block
appears in clear text in the response — contradicting both the claim and the
route's own comment about not exposing the actual key — while the
`api_key_configured` boolean does not even reflect it; two settings objects
differing only in that secret yield responses differing in the secret itself,
not in a boolean. -/
theorem providers_list_leaks_secret :
    pyGet ((pyGet (list_providers leakSettings envNone).provider_settings "gemini").getD [])
        "api_key" = some (some "sk-secret-123") ∧
    (list_providers leakSettings envNone).api_key_configured = false ∧
    (list_providers leakSettings envNone).provider_settings ≠
      (list_providers leakSettings2 envNone).provider_settings ∧
    (list_providers leakSettings envNone).api_key_configured =
      (list_providers leakSettings2 envNone).api_key_configured := by
  refine ⟨rfl, rfl, ?_, rfl⟩
  decide

/-- C10: a job id that was never submitted does not fail and is not given a
distinct not-found signal: because the Celery backend reports an unknown id as
`PENDING`, the status route returns a normal snapshot with status `QUEUED` and
no result or error — indistinguishable from the snapshot of a genuinely
pending (queued) job with the same id. -/
theorem unknown_job_id_indistinguishable (store : String → Option AsyncResult) (id : String)
    (h : store id = none) :
    get_job_status (asyncResultFor store) id =
      { job_id := id, status := JobStatus.queued, result_url := none, error := none } ∧
    ∀ store2 : String → Option AsyncResult,
      store2 id = some { state := "PENDING", result := Json.null } →
      get_job_status (asyncResultFor store2) id = get_job_status (asyncResultFor store) id := by
  constructor
  · simp [get_job_status, celery_to_api_status, asyncResultFor, h]
  · intro store2 h2
    simp [get_job_status, celery_to_api_status, asyncResultFor, h, h2]

/-- Witness for C10: with an empty result store, polling the id
`"never-submitted"` yields a plain `QUEUED` snapshot. -/
theorem unknown_job_id_indistinguishable_witness :
    get_job_status (asyncResultFor (fun _ => none)) "never-submitted" =
      { job_id := "never-submitted", status := JobStatus.queued,
        result_url := none, error := none } := by
  exact (unknown_job_id_indistinguishable (fun _ => none) "never-submitted" rfl).1

end Immersive
